import Mathlib

/-
Verification development for the InnBucks Zimbabwe dashboard
(src/streamlit_app2.py).

The file shallowly embeds the two core components of the program:

* the synthetic data generator `generate_innbucks_data` (lines 47-149),
  split here into `customers_df`, `accounts_df`, `transactions_df` and
  `agents_df`, each parameterized by an abstract source `RandSrc` of the
  pseudorandom draws the Python code obtains from `np.random.*`;
* the KPI aggregator `calculate_innbucks_kpis` (lines 152-194), together
  with the grouped aggregations (`value_counts`) and the sidebar filter
  block (lines 212-224).

Conventions of the embedding:

* floating-point values become rationals (`ℚ`);
* timestamps live on a single rational axis measured in hours since
  2020-01-01 00:00 (`pd.date_range('2020-01-01', ...)` with daily
  frequency gives customer `i` the value `24 * i`); `datetime.now()` and
  `datetime.now().replace(day=1)` are environment inputs and are passed
  explicitly as the parameters `now` and `current_month`;
* `pandas Series.mean()` returns NaN on an empty series and a number
  otherwise, which is embedded as `Option ℚ` (`none` = NaN);
* the unguarded Python division `successful_transactions /
  total_transactions` raises `ZeroDivisionError` when the transactions
  table is empty, so the aggregator is embedded as an `Except`.
-/

/-- Timestamps: hours since 2020-01-01 00:00, as rationals. -/
abbrev Time := ℚ

/-- Abstract source for the pseudorandom draws consumed by
`generate_innbucks_data`.  The Python code calls `np.random.*` on a global
generator seeded with 42; each call site becomes an indexed family of
opaque values here (one index per customer/account, a second index per
transaction within an account). -/
structure RandSrc where
  custTypeDraw : Nat → String
  regionDraw : Nat → String
  branchDraw : Nat → String
  ageDraw : Nat → Nat
  networkDraw : Nat → String
  kycDraw : Nat → String
  currencyDraw : Nat → String
  balanceDraw : Nat → ℚ
  zwlRateDraw : Nat → ℚ
  nTxns : Nat → Nat
  dayDraw : Nat → Nat → Nat
  hourDraw : Nat → Nat → Nat
  txnTypeDraw : Nat → Nat → String
  amountSendDraw : Nat → Nat → ℚ
  amountCashInDraw : Nat → Nat → ℚ
  amountOtherDraw : Nat → Nat → ℚ
  channelDraw : Nat → Nat → String
  statusDraw : Nat → Nat → ℚ
  agentLocDraw : Nat → String
  agentStatusDraw : Nat → String
  agentVolumeDraw : Nat → ℚ
  agentRegDraw : Nat → Nat

/-- Row of `customers_df` (lines 59-68). -/
structure Customer where
  customer_id : String
  customer_type : String
  region : String
  branch : String
  age : Nat
  registration_date : Time
  mobile_network : String
  kyc_status : String
deriving DecidableEq

/-- Row of `accounts_df` (lines 79-87). -/
structure Account where
  customer_id : String
  account_id : String
  primary_currency : String
  usd_balance : ℚ
  zwl_balance : ℚ
  total_balance_usd : ℚ
  account_status : String
deriving DecidableEq

/-- Row of `transactions_df` (lines 116-125). -/
structure Transaction where
  transaction_id : String
  account_id : String
  transaction_date : Time
  amount_usd : ℚ
  transaction_type : String
  channel : String
  status : String
  fee_usd : ℚ
deriving DecidableEq

/-- Row of `agents_df` (lines 139-145). -/
structure Agent where
  agent_id : String
  location : String
  status : String
  monthly_volume_usd : ℚ
  registration_date : Time
deriving DecidableEq

/-- `n_customers = 5000` (line 56). -/
def n_customers : Nat := 5000

/-- The five decimal digits of `i`: the f-string field `{i:05d}` for
`i < 100000` (the generator only formats ids `1 ..= 5000`). -/
def pad5 (i : Nat) : List Char :=
  [Nat.digitChar (i / 10000 % 10), Nat.digitChar (i / 1000 % 10),
   Nat.digitChar (i / 100 % 10), Nat.digitChar (i / 10 % 10),
   Nat.digitChar (i % 10)]

/-- `f'INN{i:05d}'` (line 57). -/
def mkCustomerId (i : Nat) : String :=
  String.mk ('I' :: 'N' :: 'N' :: pad5 i)

/-- `customer_ids = [f'INN{i:05d}' for i in range(1, n_customers+1)]`
(line 57): `range(1, n+1)` is `List.range' 1 n`. -/
def customer_ids : List String :=
  (List.range' 1 n_customers).map mkCustomerId

/-- Row `i` (0-based) of the customers dataframe (lines 59-68):
`registration_date = pd.date_range('2020-01-01', periods=n, freq='D')`
gives row `i` the day offset `i`, i.e. `24 * i` hours. -/
def mkCustomer (r : RandSrc) (i : Nat) : Customer :=
  { customer_id := mkCustomerId (i + 1)
    customer_type := r.custTypeDraw i
    region := r.regionDraw i
    branch := r.branchDraw i
    age := r.ageDraw i
    registration_date := 24 * (i : ℚ)
    mobile_network := r.networkDraw i
    kyc_status := r.kycDraw i }

/-- `customers_df` (lines 59-68). -/
def customers_df (r : RandSrc) : List Customer :=
  (List.range n_customers).map (mkCustomer r)

/-- One account for customer `cust_id`, built at loop index `idx`
(lines 74-87).  The two no-op conditionals
`usd_balance if primary_currency == 'USD' else usd_balance` are kept
verbatim. -/
def mkAccount (r : RandSrc) (idx : Nat) (cust_id : String) : Account :=
  let primary_currency := r.currencyDraw idx
  let usd_balance := max 10 (r.balanceDraw idx)
  let zwl_balance :=
    if primary_currency = "ZWL" then usd_balance * r.zwlRateDraw idx else 0
  { customer_id := cust_id
    account_id := "ACC" ++ cust_id
    primary_currency := primary_currency
    usd_balance := if primary_currency = "USD" then usd_balance else usd_balance
    zwl_balance := zwl_balance
    total_balance_usd := if primary_currency = "USD" then usd_balance else usd_balance
    account_status := "Active" }

/-- The account loop `for cust_id in customer_ids` (lines 71-87), with the
running draw index made explicit. -/
def accountsAux (r : RandSrc) : Nat → List String → List Account
  | _, [] => []
  | idx, cid :: rest => mkAccount r idx cid :: accountsAux r (idx + 1) rest

/-- `accounts_df` (line 89). -/
def accounts_df (r : RandSrc) : List Account :=
  accountsAux r 0 customer_ids

/-- Transaction `i` of the account at loop index `aidx` (lines 99-125).
`start_date = datetime.now() - timedelta(days=90)`; the timestamp adds a
uniform day offset in `[0, 90)` and hour offset in `[0, 24)`. -/
def mkTransaction (r : RandSrc) (now : Time) (aidx i : Nat) (account_id : String) :
    Transaction :=
  let start_date := now - 90 * 24
  let transaction_date :=
    start_date + 24 * (r.dayDraw aidx i : ℚ) + (r.hourDraw aidx i : ℚ)
  let transaction_type := r.txnTypeDraw aidx i
  let amount :=
    if transaction_type = "Send Money" then |r.amountSendDraw aidx i|
    else if transaction_type = "Cash In" then |r.amountCashInDraw aidx i|
    else |r.amountOtherDraw aidx i|
  { transaction_id := "TXN" ++ account_id ++ toString i
    account_id := account_id
    transaction_date := transaction_date
    amount_usd := amount
    transaction_type := transaction_type
    channel := r.channelDraw aidx i
    status := if r.statusDraw aidx i > 2 / 100 then "Completed" else "Failed"
    fee_usd :=
      if transaction_type = "Send Money" ∨ transaction_type = "Bill Payment"
      then amount * (2 / 100) else amount * (1 / 100) }

/-- The inner loop `for i in range(n_transactions)` (lines 97-125):
`n_transactions = np.random.poisson(25)`. -/
def txnsForAccount (r : RandSrc) (now : Time) (aidx : Nat) (account_id : String) :
    List Transaction :=
  (List.range (r.nTxns aidx)).map (fun i => mkTransaction r now aidx i account_id)

/-- The outer loop `for account in accounts_data` (lines 95-125). -/
def transactionsAux (r : RandSrc) (now : Time) : Nat → List Account → List Transaction
  | _, [] => []
  | aidx, a :: rest =>
      txnsForAccount r now aidx a.account_id ++ transactionsAux r now (aidx + 1) rest

/-- `transactions_df` (line 127). -/
def transactions_df (r : RandSrc) (now : Time) : List Transaction :=
  transactionsAux r now 0 (accounts_df r)

/-- `n_agents = 200` (line 131). -/
def n_agents : Nat := 200

/-- The four decimal digits of `i`: the f-string field `{i:04d}` for
`i < 10000` (the generator only formats ids `0 ..= 199`). -/
def pad4 (i : Nat) : List Char :=
  [Nat.digitChar (i / 1000 % 10), Nat.digitChar (i / 100 % 10),
   Nat.digitChar (i / 10 % 10), Nat.digitChar (i % 10)]

/-- Hours from 2020-01-01 to 2023-01-01 (`pd.Timestamp('2023-01-01')`,
line 144): 1096 days. -/
def agents_base : Time := 1096 * 24

/-- Agent row `i` (lines 133-145). -/
def mkAgent (r : RandSrc) (i : Nat) : Agent :=
  { agent_id := String.mk ('A' :: 'G' :: 'T' :: pad4 i)
    location := r.agentLocDraw i
    status := r.agentStatusDraw i
    monthly_volume_usd := r.agentVolumeDraw i
    registration_date := agents_base + 24 * (r.agentRegDraw i : ℚ) }

/-- `agents_df` (line 147). -/
def agents_df (r : RandSrc) : List Agent :=
  (List.range n_agents).map (mkAgent r)

/-- `pandas Series.mean()`: NaN (here `none`) on an empty series,
otherwise the sum divided by the length. -/
def mean (l : List ℚ) : Option ℚ :=
  if l.length = 0 then none else some (l.sum / (l.length : ℚ))

/-- `total_customers = customers_df['customer_id'].nunique()` (line 156). -/
def total_customers (customers : List Customer) : Nat :=
  ((customers.map Customer.customer_id).dedup).length

/-- `active_agents = agents_df[agents_df['status'] == 'Active'].shape[0]`
(line 157). -/
def active_agents (agents : List Agent) : Nat :=
  (agents.filter (fun a => a.status = "Active")).length

/-- `kyc_completion_rate = (customers_df['kyc_status'] == 'Verified').mean()`
(line 158): the mean of the boolean indicator column. -/
def kyc_completion_rate (customers : List Customer) : Option ℚ :=
  mean (customers.map (fun c => if c.kyc_status = "Verified" then (1 : ℚ) else 0))

/-- `successful_transactions = transactions_df[transactions_df['status'] ==
'Completed'].shape[0]` (line 162). -/
def successful_transactions (transactions : List Transaction) : Nat :=
  (transactions.filter (fun t => t.status = "Completed")).length

/-- `total_volume = transactions_df['amount_usd'].sum()` (line 164). -/
def total_volume (transactions : List Transaction) : ℚ :=
  (transactions.map Transaction.amount_usd).sum

/-- `total_fees = transactions_df['fee_usd'].sum()` (line 165). -/
def total_fees (transactions : List Transaction) : ℚ :=
  (transactions.map Transaction.fee_usd).sum

/-- `total_deposits = accounts_df['total_balance_usd'].sum()` (line 168). -/
def total_deposits (accounts : List Account) : ℚ :=
  (accounts.map Account.total_balance_usd).sum

/-- `avg_balance = accounts_df['total_balance_usd'].mean()` (line 169). -/
def avg_balance (accounts : List Account) : Option ℚ :=
  mean (accounts.map Account.total_balance_usd)

/-- `recent_txns = transactions_df[transactions_df['transaction_date'] >=
last_7_days]` with `last_7_days = datetime.now() - timedelta(days=7)`
(lines 172-173). -/
def recent_txns (now : Time) (transactions : List Transaction) : List Transaction :=
  transactions.filter (fun t => now - 7 * 24 ≤ t.transaction_date)

/-- `new_customers_this_month = customers_df[customers_df['registration_date']
>= current_month].shape[0]` with `current_month =
datetime.now().replace(day=1)` (lines 178-179). -/
def new_customers_this_month (current_month : Time) (customers : List Customer) : Nat :=
  (customers.filter (fun c => current_month ≤ c.registration_date)).length

/-- The record returned by `calculate_innbucks_kpis` (lines 181-194). -/
structure KPIs where
  total_customers : Nat
  active_agents : Nat
  kyc_completion_rate : Option ℚ
  total_transactions : Nat
  success_rate : ℚ
  total_volume : ℚ
  total_fees : ℚ
  total_deposits : ℚ
  avg_balance : Option ℚ
  weekly_volume : ℚ
  weekly_transactions : Nat
  new_customers_this_month : Nat
deriving DecidableEq

/-- `calculate_innbucks_kpis` (lines 152-194).  The only fallible step is
the plain Python division `successful_transactions / total_transactions`
(line 163), which raises `ZeroDivisionError` when the transactions table
has zero rows; there is no guard in the source, so the embedding returns
`Except.error` exactly in that case.  `datetime.now()` (lines 172, 178)
is passed in as `now` and `datetime.now().replace(day=1)` as
`current_month`. -/
def calculate_innbucks_kpis (now current_month : Time)
    (customers : List Customer) (accounts : List Account)
    (transactions : List Transaction) (agents : List Agent) :
    Except String KPIs :=
  if transactions.length = 0 then
    Except.error "ZeroDivisionError: division by zero"
  else
    Except.ok
      { total_customers := total_customers customers
        active_agents := active_agents agents
        kyc_completion_rate := kyc_completion_rate customers
        total_transactions := transactions.length
        success_rate :=
          (successful_transactions transactions : ℚ) / (transactions.length : ℚ)
        total_volume := total_volume transactions
        total_fees := total_fees transactions
        total_deposits := total_deposits accounts
        avg_balance := avg_balance accounts
        weekly_volume := total_volume (recent_txns now transactions)
        weekly_transactions := (recent_txns now transactions).length
        new_customers_this_month := new_customers_this_month current_month customers }

/-- Values of the KPI dict (ints, floats, and the NaN-able means). -/
inductive KPIValue where
  | nat : Nat → KPIValue
  | rat : ℚ → KPIValue
  | optRat : Option ℚ → KPIValue
deriving DecidableEq

/-- The dict literal returned at lines 181-194, keys in source order. -/
def kpiEntries (k : KPIs) : List (String × KPIValue) :=
  [("total_customers", KPIValue.nat k.total_customers),
   ("active_agents", KPIValue.nat k.active_agents),
   ("kyc_completion_rate", KPIValue.optRat k.kyc_completion_rate),
   ("total_transactions", KPIValue.nat k.total_transactions),
   ("success_rate", KPIValue.rat k.success_rate),
   ("total_volume", KPIValue.rat k.total_volume),
   ("total_fees", KPIValue.rat k.total_fees),
   ("total_deposits", KPIValue.rat k.total_deposits),
   ("avg_balance", KPIValue.optRat k.avg_balance),
   ("weekly_volume", KPIValue.rat k.weekly_volume),
   ("weekly_transactions", KPIValue.nat k.weekly_transactions),
   ("new_customers_this_month", KPIValue.nat k.new_customers_this_month)]

/-- The scalar metrics that do not read the clock: every field of the
output except the trailing-7-day pair and the current-month count. -/
def stableMetrics (k : KPIs) :
    Nat × Nat × Option ℚ × Nat × ℚ × ℚ × ℚ × ℚ × Option ℚ :=
  (k.total_customers, k.active_agents, k.kyc_completion_rate,
   k.total_transactions, k.success_rate, k.total_volume, k.total_fees,
   k.total_deposits, k.avg_balance)

/-- `pandas Series.value_counts()` (lines 298, 310): one entry per distinct
value paired with its number of occurrences. -/
def valueCounts {α : Type} [DecidableEq α] (l : List α) : List (α × Nat) :=
  l.dedup.map (fun a => (a, l.count a))

/-- Result of the sidebar filter block: the original dataframes and the
filtered views. -/
structure FilterState where
  customers_df : List Customer
  transactions_df : List Transaction
  filtered_customers : List Customer
  filtered_transactions : List Transaction

/-- The filter block (lines 212-224): `filtered_customers =
customers_df.copy()`, then for each non-`'All'` selection a boolean-mask
restriction; transactions are restricted by recovering the customer id
from the account id via `str[3:]` and membership in the filtered
customer id list. -/
def applyFilters (customers : List Customer) (transactions : List Transaction)
    (selected_region selected_branch : String) : FilterState :=
  let filtered_customers := customers
  let filtered_transactions := transactions
  let fc1 :=
    if selected_region ≠ "All" then
      filtered_customers.filter (fun c => c.region = selected_region)
    else filtered_customers
  let ft1 :=
    if selected_region ≠ "All" then
      filtered_transactions.filter
        (fun t => t.account_id.drop 3 ∈ fc1.map Customer.customer_id)
    else filtered_transactions
  let fc2 :=
    if selected_branch ≠ "All" then
      fc1.filter (fun c => c.branch = selected_branch)
    else fc1
  let ft2 :=
    if selected_branch ≠ "All" then
      ft1.filter (fun t => t.account_id.drop 3 ∈ fc2.map Customer.customer_id)
    else ft1
  { customers_df := customers
    transactions_df := transactions
    filtered_customers := fc2
    filtered_transactions := ft2 }

/-- A concrete transaction used to evaluate the aggregator on explicit
inputs (timestamp 1000 hours, a completed Send Money of 5 USD). -/
def tA : Transaction :=
  { transaction_id := "TXNACCINN000010"
    account_id := "ACCINN00001"
    transaction_date := 1000
    amount_usd := 5
    transaction_type := "Send Money"
    channel := "Mobile App"
    status := "Completed"
    fee_usd := 1 / 10 }

/-- C1 (code bug): with an empty Transactions table the aggregator does
not resolve the rate metrics to an "undefined" sentinel: the unguarded
division `successful_transactions / total_transactions` (line 163) raises
`ZeroDivisionError`, embedded here as the `Except.error` result, for every
choice of the other tables and of the clock. -/
theorem c1_empty_transactions_fault (now current_month : Time)
    (customers : List Customer) (accounts : List Account) (agents : List Agent) :
    calculate_innbucks_kpis now current_month customers accounts [] agents
      = Except.error "ZeroDivisionError: division by zero" := rfl

/-- C2 (counterexample): the aggregator is not a pure function of the
input tables alone: on identical tables, two invocations with different
values of `datetime.now()` return different `weekly_transactions`
(1 at hour 1010, 0 at hour 2000), even though no weekly-growth metric is
involved. -/
theorem c2_counterexample :
    ¬ (calculate_innbucks_kpis 1010 0 [] [] [tA] []).toOption.map
          KPIs.weekly_transactions
      = (calculate_innbucks_kpis 2000 0 [] [] [tA] []).toOption.map
          KPIs.weekly_transactions := by
  intro h
  have h1 : (calculate_innbucks_kpis 1010 0 [] [] [tA] []).toOption.map
      KPIs.weekly_transactions = some 1 := by
    norm_num [calculate_innbucks_kpis, recent_txns, tA, Except.toOption]
  have h2 : (calculate_innbucks_kpis 2000 0 [] [] [tA] []).toOption.map
      KPIs.weekly_transactions = some 0 := by
    norm_num [calculate_innbucks_kpis, recent_txns, tA, Except.toOption]
  rw [h1, h2] at h
  exact absurd (Option.some.inj h) (by omega)

/-- C2 (amended): every scalar metric other than `weekly_volume`,
`weekly_transactions` and `new_customers_this_month` is a pure function of
the input tables alone: the projection to those nine metrics is identical
across invocations with arbitrary clock readings. -/
theorem c2_scalar_metrics_time_independent
    (now1 cm1 now2 cm2 : Time) (customers : List Customer)
    (accounts : List Account) (transactions : List Transaction)
    (agents : List Agent) :
    (calculate_innbucks_kpis now1 cm1 customers accounts transactions agents).map
        stableMetrics
      = (calculate_innbucks_kpis now2 cm2 customers accounts transactions agents).map
        stableMetrics := by
  by_cases h : transactions.length = 0 <;>
    simp [calculate_innbucks_kpis, h, stableMetrics, Except.map]

/-- C3 (counterexample): the aggregator's output contains no
"weekly growth" entry at all: evaluated on a concrete input, the key list
of the returned dict does not contain `"weekly_growth"`. -/
theorem c3_no_weekly_growth_key :
    (calculate_innbucks_kpis 0 0 [] [] [tA] []).toOption.map
        (fun k => decide ("weekly_growth" ∈ (kpiEntries k).map Prod.fst))
      = some false := by
  decide

/-- C3 (amended): the aggregator's output consists of exactly the twelve
metrics of the dict at lines 181-194, in source order, and no weekly
growth figure is among them (the display deltas near it are hard-coded
constants, not a uniform draw from [0.05, 0.15]). -/
theorem c3_kpi_keys (now current_month : Time) (customers : List Customer)
    (accounts : List Account) (transactions : List Transaction)
    (agents : List Agent) (k : KPIs)
    (h : calculate_innbucks_kpis now current_month customers accounts
          transactions agents = Except.ok k) :
    (kpiEntries k).map Prod.fst
        = ["total_customers", "active_agents", "kyc_completion_rate",
           "total_transactions", "success_rate", "total_volume", "total_fees",
           "total_deposits", "avg_balance", "weekly_volume",
           "weekly_transactions", "new_customers_this_month"]
      ∧ "weekly_growth" ∉ (kpiEntries k).map Prod.fst := by
  refine ⟨rfl, ?_⟩
  intro hmem
  simp [kpiEntries] at hmem

/-- The concrete KPI record the aggregator returns on `0 0 [] [] [tA] []`. -/
def kA : KPIs :=
  { total_customers := 0
    active_agents := 0
    kyc_completion_rate := none
    total_transactions := 1
    success_rate := 1
    total_volume := 5
    total_fees := 1 / 10
    total_deposits := 0
    avg_balance := none
    weekly_volume := 5
    weekly_transactions := 1
    new_customers_this_month := 0 }

/-- C3 (witness): the amended statement instantiated on a concrete
successful run of the aggregator. -/
theorem c3_kpi_keys_witness :
    (calculate_innbucks_kpis 0 0 [] [] [tA] [] = Except.ok kA)
      ∧ ((kpiEntries kA).map Prod.fst
          = ["total_customers", "active_agents", "kyc_completion_rate",
             "total_transactions", "success_rate", "total_volume", "total_fees",
             "total_deposits", "avg_balance", "weekly_volume",
             "weekly_transactions", "new_customers_this_month"]
        ∧ "weekly_growth" ∉ (kpiEntries kA).map Prod.fst) :=
  have h : calculate_innbucks_kpis 0 0 [] [] [tA] [] = Except.ok kA := by
    norm_num [calculate_innbucks_kpis, recent_txns, tA, kA, total_customers,
      active_agents, kyc_completion_rate, successful_transactions, total_volume,
      total_fees, total_deposits, avg_balance, new_customers_this_month, mean]
  ⟨h, c3_kpi_keys 0 0 [] [] [tA] [] kA h⟩

/-- Summing the boolean indicator column of `kyc_status == 'Verified'`
counts the verified customers. -/
theorem sum_kyc_indicator (customers : List Customer) :
    (customers.map (fun c => if c.kyc_status = "Verified" then (1 : ℚ) else 0)).sum
      = ((customers.filter (fun c => c.kyc_status = "Verified")).length : ℚ) := by
  induction customers with
  | nil => simp
  | cons c cs ih =>
      by_cases hc : c.kyc_status = "Verified" <;>
        simp [List.filter_cons, hc, ih] <;> push_cast <;> ring

/-- C4: on a non-empty Customers table (and a non-empty Transactions
table, so that the aggregator returns at all), the KYC completion rate it
returns is exactly the number of customers with `kyc_status == 'Verified'`
divided by the total number of customers, and that value lies in [0, 1]. -/
theorem c4_kyc_rate (now current_month : Time) (customers : List Customer)
    (accounts : List Account) (transactions : List Transaction)
    (agents : List Agent) (hc : customers ≠ []) (ht : transactions ≠ []) :
    (calculate_innbucks_kpis now current_month customers accounts transactions
        agents).map KPIs.kyc_completion_rate
      = Except.ok (some
          (((customers.filter (fun c => c.kyc_status = "Verified")).length : ℚ)
            / (customers.length : ℚ)))
    ∧ 0 ≤ ((customers.filter (fun c => c.kyc_status = "Verified")).length : ℚ)
            / (customers.length : ℚ)
    ∧ ((customers.filter (fun c => c.kyc_status = "Verified")).length : ℚ)
        / (customers.length : ℚ) ≤ 1 := by
  have hclen : 0 < customers.length := List.length_pos.mpr hc
  have htlen : transactions.length ≠ 0 := by
    have := List.length_pos.mpr ht
    omega
  refine ⟨?_, ?_, ?_⟩
  · simp only [calculate_innbucks_kpis, if_neg htlen, Except.map,
      kyc_completion_rate, mean, List.length_map]
    rw [if_neg (by omega), sum_kyc_indicator]
  · positivity
  · rw [div_le_one (by exact_mod_cast hclen)]
    exact_mod_cast List.length_filter_le _ _

/-- A concrete verified customer for evaluating the aggregator. -/
def cA : Customer :=
  { customer_id := "INN00001"
    customer_type := "Individual"
    region := "Harare"
    branch := "Harare CBD"
    age := 30
    registration_date := 0
    mobile_network := "Econet"
    kyc_status := "Verified" }

/-- C4 (witness): the statement instantiated on one verified customer and
one transaction. -/
theorem c4_kyc_rate_witness :
    (([cA] : List Customer) ≠ [] ∧ ([tA] : List Transaction) ≠ [])
    ∧ ((calculate_innbucks_kpis 0 0 [cA] [] [tA] []).map KPIs.kyc_completion_rate
        = Except.ok (some
            ((([cA].filter (fun c => c.kyc_status = "Verified")).length : ℚ)
              / (([cA] : List Customer).length : ℚ)))
      ∧ 0 ≤ (([cA].filter (fun c => c.kyc_status = "Verified")).length : ℚ)
              / (([cA] : List Customer).length : ℚ)
      ∧ (([cA].filter (fun c => c.kyc_status = "Verified")).length : ℚ)
          / (([cA] : List Customer).length : ℚ) ≤ 1) :=
  ⟨⟨List.cons_ne_nil cA [], List.cons_ne_nil tA []⟩,
   c4_kyc_rate 0 0 [cA] [] [tA] [] (List.cons_ne_nil cA []) (List.cons_ne_nil tA [])⟩

/-- The per-distinct-value counts of `value_counts` sum to the length. -/
theorem valueCounts_sum {α : Type} [DecidableEq α] (l : List α) :
    ((valueCounts l).map Prod.snd).sum = l.length := by
  rw [valueCounts, List.map_map]
  exact List.sum_map_count_dedup_eq_length l

/-- Over a duplicate-free list containing `x`, filtering for `x` keeps
exactly one element. -/
theorem length_filter_eq_one_of_nodup {α : Type} [DecidableEq α] {l : List α}
    (hn : l.Nodup) {x : α} (hx : x ∈ l) :
    (l.filter (fun a => a = x)).length = 1 := by
  induction l with
  | nil => cases hx
  | cons b bs ih =>
      rw [List.nodup_cons] at hn
      rcases List.mem_cons.mp hx with h | h
      · subst h
        have hnil : bs.filter (fun a => a = x) = [] := by
          rw [List.filter_eq_nil_iff]
          intro a ha hax
          exact hn.1 (of_decide_eq_true hax ▸ ha)
        simp [List.filter_cons, hnil]
      · have hbx : ¬ (b = x) := by
          rintro rfl
          exact hn.1 h
        simp [List.filter_cons, hbx, ih hn.2 h]

/-- Every value occurring in `l` owns exactly one row of `value_counts l`. -/
theorem valueCounts_key_unique {α : Type} [DecidableEq α] (l : List α) (x : α)
    (hx : x ∈ l) :
    ((valueCounts l).filter (fun p => p.fst = x)).length = 1 := by
  rw [valueCounts, List.filter_map, List.length_map]
  exact length_filter_eq_one_of_nodup (List.nodup_dedup l) (List.mem_dedup.mpr hx)

/-- C8: the grouped counts by `transaction_type` sum exactly to the total
transaction row count, likewise the grouped counts by `channel`, and each
row falls in exactly one group of either grouping. -/
theorem c8_group_counts (transactions : List Transaction) :
    ((valueCounts (transactions.map Transaction.transaction_type)).map Prod.snd).sum
        = transactions.length
    ∧ ((valueCounts (transactions.map Transaction.channel)).map Prod.snd).sum
        = transactions.length
    ∧ ∀ t ∈ transactions,
        ((valueCounts (transactions.map Transaction.transaction_type)).filter
            (fun p => p.fst = t.transaction_type)).length = 1
        ∧ ((valueCounts (transactions.map Transaction.channel)).filter
            (fun p => p.fst = t.channel)).length = 1 := by
  refine ⟨?_, ?_, ?_⟩
  · rw [valueCounts_sum, List.length_map]
  · rw [valueCounts_sum, List.length_map]
  · intro t ht
    exact ⟨valueCounts_key_unique _ _ (List.mem_map_of_mem _ ht),
           valueCounts_key_unique _ _ (List.mem_map_of_mem _ ht)⟩

/-- C8 (witness): the partition statement instantiated on a one-row
table. -/
theorem c8_group_counts_witness :
    (tA ∈ ([tA] : List Transaction))
    ∧ (((valueCounts (([tA] : List Transaction).map Transaction.transaction_type)).filter
          (fun p => p.fst = tA.transaction_type)).length = 1
      ∧ ((valueCounts (([tA] : List Transaction).map Transaction.channel)).filter
          (fun p => p.fst = tA.channel)).length = 1) :=
  ⟨List.mem_cons_self tA [], (c8_group_counts [tA]).2.2 tA (List.mem_cons_self tA [])⟩

/-- C9: the sidebar filter block returns the original Customers and
Transactions tables unchanged, and the filtered views are restrictions
(sublists) of the originals, for every selection. -/
theorem c9_filters_read_only (customers : List Customer)
    (transactions : List Transaction) (selected_region selected_branch : String) :
    (applyFilters customers transactions selected_region selected_branch).customers_df
        = customers
    ∧ (applyFilters customers transactions selected_region selected_branch).transactions_df
        = transactions
    ∧ List.Sublist
        ((applyFilters customers transactions selected_region
            selected_branch).filtered_customers) customers
    ∧ List.Sublist
        ((applyFilters customers transactions selected_region
            selected_branch).filtered_transactions) transactions := by
  refine ⟨rfl, rfl, ?_, ?_⟩ <;>
    · simp only [applyFilters]
      split_ifs <;>
        first
          | exact List.Sublist.refl _
          | exact List.filter_sublist _
          | exact (List.filter_sublist _).trans (List.filter_sublist _)

/-- `Nat.digitChar` is injective on single digits. -/
theorem digitChar_inj_lt_ten :
    ∀ a < 10, ∀ b < 10, Nat.digitChar a = Nat.digitChar b → a = b := by
  decide

/-- `f'INN{i:05d}'` is injective below 100000. -/
theorem mkCustomerId_inj {i j : Nat} (hi : i < 100000) (hj : j < 100000)
    (h : mkCustomerId i = mkCustomerId j) : i = j := by
  have h2 : ('I' :: 'N' :: 'N' :: pad5 i) = ('I' :: 'N' :: 'N' :: pad5 j) :=
    congrArg String.data h
  simp only [pad5, List.cons.injEq, and_true] at h2
  obtain ⟨-, -, -, e1, e2, e3, e4, e5⟩ := h2
  have d1 := digitChar_inj_lt_ten _ (Nat.mod_lt _ (by norm_num)) _
    (Nat.mod_lt _ (by norm_num)) e1
  have d2 := digitChar_inj_lt_ten _ (Nat.mod_lt _ (by norm_num)) _
    (Nat.mod_lt _ (by norm_num)) e2
  have d3 := digitChar_inj_lt_ten _ (Nat.mod_lt _ (by norm_num)) _
    (Nat.mod_lt _ (by norm_num)) e3
  have d4 := digitChar_inj_lt_ten _ (Nat.mod_lt _ (by norm_num)) _
    (Nat.mod_lt _ (by norm_num)) e4
  have d5 := digitChar_inj_lt_ten _ (Nat.mod_lt _ (by norm_num)) _
    (Nat.mod_lt _ (by norm_num)) e5
  omega

/-- The generated customer ids are pairwise distinct. -/
theorem customer_ids_nodup : customer_ids.Nodup := by
  have h5 : n_customers = 5000 := rfl
  refine List.Nodup.map_on ?_ (List.nodup_range' 1 n_customers 1 (by norm_num))
  intro x hx y hy hxy
  have hx2 := (List.mem_range'_1.mp hx).2
  have hy2 := (List.mem_range'_1.mp hy).2
  rw [h5] at hx2 hy2
  exact mkCustomerId_inj (by omega) (by omega) hxy

/-- There are `n_customers` generated customer ids. -/
theorem customer_ids_length : customer_ids.length = n_customers := by
  simp [customer_ids]

/-- The account loop produces one row per input id. -/
theorem accountsAux_length (r : RandSrc) :
    ∀ (idx : Nat) (l : List String), (accountsAux r idx l).length = l.length := by
  intro idx l
  induction l generalizing idx with
  | nil => rfl
  | cons c cs ih => simp [accountsAux, ih]

/-- Every row of the account loop is `mkAccount` of some id of the input. -/
theorem accountsAux_mem (r : RandSrc) :
    ∀ (idx : Nat) (l : List String) (a : Account), a ∈ accountsAux r idx l →
      ∃ k, ∃ cid ∈ l, a = mkAccount r k cid := by
  intro idx l
  induction l generalizing idx with
  | nil =>
      intro a ha
      cases ha
  | cons c cs ih =>
      intro a ha
      rcases List.mem_cons.mp ha with h | h
      · exact ⟨idx, c, List.mem_cons_self c cs, h⟩
      · obtain ⟨k, cid, hcid, he⟩ := ih (idx + 1) a h
        exact ⟨k, cid, List.mem_cons_of_mem c hcid, he⟩

/-- Restricting the account rows to one customer id keeps as many rows as
that id occurs among the input ids. -/
theorem accountsAux_filter_length (r : RandSrc) (cid : String) :
    ∀ (idx : Nat) (l : List String),
      ((accountsAux r idx l).filter (fun a => a.customer_id = cid)).length
        = (l.filter (fun c => c = cid)).length := by
  intro idx l
  induction l generalizing idx with
  | nil => rfl
  | cons c cs ih =>
      by_cases hc : c = cid <;>
        simp [accountsAux, List.filter_cons, mkAccount, hc, ih]

/-- The customer id column of the generated customers table is exactly
`customer_ids`. -/
theorem customers_df_map_id (r : RandSrc) :
    (customers_df r).map Customer.customer_id = customer_ids := by
  rw [customers_df, customer_ids, List.range'_eq_map_range, List.map_map,
    List.map_map]
  refine List.map_congr_left ?_
  intro i hi
  simp [mkCustomer, Nat.add_comm]

/-- C5: in every generated run the Accounts table has exactly as many rows
as the Customers table, each account's `customer_id` is the id of an
existing customer, each customer id owns exactly one account row, and each
`account_id` is the concatenation `'ACC' + customer_id`. -/
theorem c5_accounts_referential (r : RandSrc) :
    (accounts_df r).length = (customers_df r).length
    ∧ (∀ a ∈ accounts_df r,
        a.customer_id ∈ (customers_df r).map Customer.customer_id)
    ∧ (∀ cid ∈ (customers_df r).map Customer.customer_id,
        ((accounts_df r).filter (fun a => a.customer_id = cid)).length = 1)
    ∧ (∀ a ∈ accounts_df r, a.account_id = "ACC" ++ a.customer_id) := by
  have hmap := customers_df_map_id r
  refine ⟨?_, ?_, ?_, ?_⟩
  · rw [accounts_df, accountsAux_length, customer_ids_length, customers_df,
      List.length_map, List.length_range]
  · intro a ha
    obtain ⟨k, cid, hcid, he⟩ := accountsAux_mem r 0 customer_ids a ha
    rw [hmap, he]
    simpa [mkAccount] using hcid
  · intro cid hcid
    rw [hmap] at hcid
    rw [accounts_df, accountsAux_filter_length]
    exact length_filter_eq_one_of_nodup customer_ids_nodup hcid
  · intro a ha
    obtain ⟨k, cid, hcid, he⟩ := accountsAux_mem r 0 customer_ids a ha
    rw [he]
    simp [mkAccount]

/-- A concrete all-constant draw source for evaluating the generator. -/
def rW : RandSrc :=
  { custTypeDraw := fun _ => "Individual"
    regionDraw := fun _ => "Harare"
    branchDraw := fun _ => "Harare CBD"
    ageDraw := fun _ => 30
    networkDraw := fun _ => "Econet"
    kycDraw := fun _ => "Verified"
    currencyDraw := fun _ => "USD"
    balanceDraw := fun _ => 148
    zwlRateDraw := fun _ => 1000
    nTxns := fun _ => 1
    dayDraw := fun _ _ => 0
    hourDraw := fun _ _ => 0
    txnTypeDraw := fun _ _ => "Send Money"
    amountSendDraw := fun _ _ => 33
    amountCashInDraw := fun _ _ => 55
    amountOtherDraw := fun _ _ => 20
    channelDraw := fun _ _ => "Mobile App"
    statusDraw := fun _ _ => 1 / 2
    agentLocDraw := fun _ => "Mutare"
    agentStatusDraw := fun _ => "Active"
    agentVolumeDraw := fun _ => 3000
    agentRegDraw := fun _ => 10 }

/-- The head of a list is a member. -/
theorem mem_of_headEq {α : Type} {l : List α} {a : α} (h : l.head? = some a) :
    a ∈ l := by
  cases l with
  | nil => exact absurd h (by simp)
  | cons b bs =>
      have hb : b = a := by simpa using h
      rw [← hb]
      exact List.mem_cons_self b bs

/-- The first generated account row. -/
theorem accounts_df_headEq (r : RandSrc) :
    (accounts_df r).head? = some (mkAccount r 0 (mkCustomerId 1)) := rfl

/-- The first generated customer id. -/
theorem mem_customers_map_id_first (r : RandSrc) :
    mkCustomerId 1 ∈ (customers_df r).map Customer.customer_id := by
  rw [customers_df_map_id]
  exact mem_of_headEq rfl

/-- C5 (witness): the referential invariants instantiated on the first
generated account row of a concrete run. -/
theorem c5_accounts_referential_witness :
    (mkAccount rW 0 (mkCustomerId 1) ∈ accounts_df rW
      ∧ mkCustomerId 1 ∈ (customers_df rW).map Customer.customer_id)
    ∧ ((accounts_df rW).length = (customers_df rW).length
      ∧ (mkAccount rW 0 (mkCustomerId 1)).customer_id
          ∈ (customers_df rW).map Customer.customer_id
      ∧ ((accounts_df rW).filter
          (fun a => a.customer_id = mkCustomerId 1)).length = 1
      ∧ (mkAccount rW 0 (mkCustomerId 1)).account_id
          = "ACC" ++ (mkAccount rW 0 (mkCustomerId 1)).customer_id) := by
  have hma : mkAccount rW 0 (mkCustomerId 1) ∈ accounts_df rW :=
    mem_of_headEq (accounts_df_headEq rW)
  have hmc : mkCustomerId 1 ∈ (customers_df rW).map Customer.customer_id :=
    mem_customers_map_id_first rW
  refine ⟨⟨hma, hmc⟩, (c5_accounts_referential rW).1, ?_, ?_, ?_⟩
  · exact (c5_accounts_referential rW).2.1 _ hma
  · exact (c5_accounts_referential rW).2.2.1 _ hmc
  · exact (c5_accounts_referential rW).2.2.2 _ hma

/-- C7: in every generated run, each account's `total_balance_usd` equals
its `usd_balance` regardless of `primary_currency`, and `usd_balance` is
at least 10 (the lognormal draw is floored through `max(10, ...)`). -/
theorem c7_balances (r : RandSrc) :
    ∀ a ∈ accounts_df r,
      a.total_balance_usd = a.usd_balance ∧ 10 ≤ a.usd_balance := by
  intro a ha
  obtain ⟨k, cid, hcid, he⟩ := accountsAux_mem r 0 customer_ids a ha
  subst he
  refine ⟨rfl, ?_⟩
  simp only [mkAccount, ite_self]
  exact le_max_left 10 (r.balanceDraw k)

/-- C7 (witness): the balance invariants instantiated on the first
generated account row of a concrete run. -/
theorem c7_balances_witness :
    (mkAccount rW 0 (mkCustomerId 1) ∈ accounts_df rW)
    ∧ ((mkAccount rW 0 (mkCustomerId 1)).total_balance_usd
        = (mkAccount rW 0 (mkCustomerId 1)).usd_balance
      ∧ 10 ≤ (mkAccount rW 0 (mkCustomerId 1)).usd_balance) := by
  have hma : mkAccount rW 0 (mkCustomerId 1) ∈ accounts_df rW :=
    mem_of_headEq (accounts_df_headEq rW)
  exact ⟨hma, c7_balances rW _ hma⟩

/-- Amount positivity and the fee rule for a single generated transaction,
assuming the lognormal draws are in the support of the distribution
(nonzero). -/
theorem mkTransaction_amount_fee (r : RandSrc) (now : Time) (aidx i : Nat)
    (aid : String)
    (hS : r.amountSendDraw aidx i ≠ 0) (hC : r.amountCashInDraw aidx i ≠ 0)
    (hO : r.amountOtherDraw aidx i ≠ 0) :
    0 < (mkTransaction r now aidx i aid).amount_usd
    ∧ (mkTransaction r now aidx i aid).fee_usd
        ≤ (mkTransaction r now aidx i aid).amount_usd
    ∧ ((mkTransaction r now aidx i aid).transaction_type = "Send Money"
        ∨ (mkTransaction r now aidx i aid).transaction_type = "Bill Payment"
        → (mkTransaction r now aidx i aid).fee_usd
            = (mkTransaction r now aidx i aid).amount_usd * (2 / 100))
    ∧ (¬ ((mkTransaction r now aidx i aid).transaction_type = "Send Money"
          ∨ (mkTransaction r now aidx i aid).transaction_type = "Bill Payment")
        → (mkTransaction r now aidx i aid).fee_usd
            = (mkTransaction r now aidx i aid).amount_usd * (1 / 100)) := by
  have hamt : 0 < (mkTransaction r now aidx i aid).amount_usd := by
    simp only [mkTransaction]
    split
    · exact abs_pos.mpr hS
    · split
      · exact abs_pos.mpr hC
      · exact abs_pos.mpr hO
  have hfee : (mkTransaction r now aidx i aid).fee_usd
      = (if (mkTransaction r now aidx i aid).transaction_type = "Send Money"
            ∨ (mkTransaction r now aidx i aid).transaction_type = "Bill Payment"
         then (mkTransaction r now aidx i aid).amount_usd * (2 / 100)
         else (mkTransaction r now aidx i aid).amount_usd * (1 / 100)) := rfl
  refine ⟨hamt, ?_, ?_, ?_⟩
  · rw [hfee]
    split
    · exact mul_le_of_le_one_right hamt.le (by norm_num)
    · exact mul_le_of_le_one_right hamt.le (by norm_num)
  · intro hty
    rw [hfee, if_pos hty]
  · intro hty
    rw [hfee, if_neg hty]

/-- Every generated transaction row is `mkTransaction` of some indices and
account id. -/
theorem transactionsAux_mem (r : RandSrc) (now : Time) :
    ∀ (aidx : Nat) (l : List Account) (t : Transaction),
      t ∈ transactionsAux r now aidx l →
      ∃ k i aid, t = mkTransaction r now k i aid := by
  intro aidx l
  induction l generalizing aidx with
  | nil =>
      intro t ht
      cases ht
  | cons a as ih =>
      intro t ht
      simp only [transactionsAux, txnsForAccount] at ht
      rcases List.mem_append.mp ht with h | h
      · obtain ⟨i, hi, he⟩ := List.mem_map.mp h
        exact ⟨aidx, i, a.account_id, he.symm⟩
      · exact ih (aidx + 1) t h

/-- C6: every generated transaction has a strictly positive `amount_usd`
(the lognormal draw, which never lands on zero, is folded through `abs`),
its fee never exceeds the amount, and the fee is 2% of the amount for
Send Money / Bill Payment and 1% otherwise. -/
theorem c6_amounts_fees (r : RandSrc) (now : Time)
    (hS : ∀ k i, r.amountSendDraw k i ≠ 0)
    (hC : ∀ k i, r.amountCashInDraw k i ≠ 0)
    (hO : ∀ k i, r.amountOtherDraw k i ≠ 0) :
    ∀ t ∈ transactions_df r now,
      0 < t.amount_usd ∧ t.fee_usd ≤ t.amount_usd
      ∧ (t.transaction_type = "Send Money" ∨ t.transaction_type = "Bill Payment"
          → t.fee_usd = t.amount_usd * (2 / 100))
      ∧ (¬ (t.transaction_type = "Send Money"
            ∨ t.transaction_type = "Bill Payment")
          → t.fee_usd = t.amount_usd * (1 / 100)) := by
  intro t ht
  obtain ⟨k, i, aid, he⟩ := transactionsAux_mem r now 0 (accounts_df r) t ht
  subst he
  exact mkTransaction_amount_fee r now k i aid (hS k i) (hC k i) (hO k i)

/-- C6 (witness): the amount/fee properties instantiated on the first
transaction of a concrete generated run. -/
theorem c6_amounts_fees_witness :
    (mkTransaction rW 0 0 0 (mkAccount rW 0 (mkCustomerId 1)).account_id
        ∈ transactions_df rW 0)
    ∧ 0 < (mkTransaction rW 0 0 0
            (mkAccount rW 0 (mkCustomerId 1)).account_id).amount_usd
    ∧ (mkTransaction rW 0 0 0
          (mkAccount rW 0 (mkCustomerId 1)).account_id).fee_usd
        ≤ (mkTransaction rW 0 0 0
            (mkAccount rW 0 (mkCustomerId 1)).account_id).amount_usd := by
  have hm : mkTransaction rW 0 0 0 (mkAccount rW 0 (mkCustomerId 1)).account_id
      ∈ transactions_df rW 0 := mem_of_headEq rfl
  have h := c6_amounts_fees rW 0
    (by intro k i; norm_num [rW]) (by intro k i; norm_num [rW])
    (by intro k i; norm_num [rW]) _ hm
  exact ⟨hm, h.1, h.2.1⟩

/-- C10: for a non-empty Accounts table the average balance times the row
count equals the total deposits, and on a generated run (one account per
customer, distinct ids) the average balance equals total deposits divided
by the total customer count. -/
theorem c10_avg_balance (accounts : List Account) (r : RandSrc)
    (h : accounts ≠ []) :
    (avg_balance accounts
        = some (total_deposits accounts / (accounts.length : ℚ))
      ∧ total_deposits accounts / (accounts.length : ℚ) * (accounts.length : ℚ)
          = total_deposits accounts)
    ∧ avg_balance (accounts_df r)
        = some (total_deposits (accounts_df r)
            / (total_customers (customers_df r) : ℚ)) := by
  have hlen : accounts.length ≠ 0 := fun h0 => h (List.length_eq_zero.mp h0)
  refine ⟨⟨?_, ?_⟩, ?_⟩
  · simp only [avg_balance, mean, List.length_map, total_deposits]
    rw [if_neg hlen]
  · exact div_mul_cancel₀ _ (by exact_mod_cast hlen)
  · have h1 : (accounts_df r).length = n_customers := by
      rw [accounts_df, accountsAux_length, customer_ids_length]
    have h2 : total_customers (customers_df r) = n_customers := by
      rw [total_customers, customers_df_map_id,
        List.dedup_eq_self.mpr customer_ids_nodup, customer_ids_length]
    have hne : (accounts_df r).length ≠ 0 := by
      rw [h1]
      norm_num [n_customers]
    simp only [avg_balance, mean, List.length_map, total_deposits]
    rw [if_neg hne, h1, h2]

/-- A concrete account row for evaluating the aggregator. -/
def aW : Account :=
  { customer_id := "INN00001"
    account_id := "ACCINN00001"
    primary_currency := "USD"
    usd_balance := 148
    zwl_balance := 0
    total_balance_usd := 148
    account_status := "Active" }

/-- C10 (witness): the statement instantiated on a one-row Accounts table
and a concrete generated run. -/
theorem c10_avg_balance_witness :
    (([aW] : List Account) ≠ [])
    ∧ ((avg_balance [aW]
          = some (total_deposits [aW] / (([aW] : List Account).length : ℚ))
        ∧ total_deposits [aW] / (([aW] : List Account).length : ℚ)
            * (([aW] : List Account).length : ℚ) = total_deposits [aW])
      ∧ avg_balance (accounts_df rW)
          = some (total_deposits (accounts_df rW)
              / (total_customers (customers_df rW) : ℚ))) :=
  ⟨List.cons_ne_nil aW [], c10_avg_balance [aW] rW (List.cons_ne_nil aW [])⟩
